import Mathlib

/-!
Verification development for the RainBot repository.

The reusable core of the repository consists of
  - forecast normalization: `build_forecast_df` (streamlit_app.py) for the
    3-hour-step list-of-records provider shape, and `build_hourly_df`
    (utils.py) for the hourly parallel-arrays shape;
  - daily aggregation: the pandas groupby blocks of streamlit_app.py and
    pages/01_Rain_Forecast.py, embedded here as `aggregate_daily`;
  - the advisory rule engine: the four `compose_advice` variants
    (utils.py, streamlit_app.py, pages/01, pages/02) and the flood-risk
    if/elif block of streamlit_app.py, embedded as `flood_risk`.

Machine floats of the Python source are embedded as rationals; all the
thresholds and sample values involved are exactly representable, so the
comparisons coincide.  Optional / possibly-absent JSON fields are embedded
as `Option`; Python truthiness gates (`if avg_temp:`) are embedded as the
corresponding explicit tests (nonzero for numbers, nonempty for strings).
-/

namespace RainBot

/-! ### Forecast normalization: streamlit_app.build_forecast_df

One element of `forecast_json["list"]`.  A field is `none` when the
corresponding JSON key is absent.  `rain` is a nested dict: the outer
`Option` is the `"rain"` key, the inner `Option` the `"3h"` key (an inner
`none` also covers the falsy empty dict, which the source treats the same
way: rain defaults to `0.0`).  `weather` is a list of dicts of which only
the `"description"` key is read; `wind` is a dict of which only `"speed"`
is read, so both nested dicts are embedded by that single field. -/
structure Entry where
  dt : Option Int
  temp : Option ℚ
  humidity : Option ℚ
  rain : Option (Option ℚ)
  weather : Option (List (Option String))
  windSpeed : Option (Option ℚ)
deriving DecidableEq

/-- One row of the DataFrame built by `build_forecast_df`.  The source
stores a local-time `datetime` and its `.date()`; the embedding keeps the
raw epoch second and an abstract day index (floor division by 86400); the
claims never inspect the concrete date values of this builder. -/
structure Row where
  datetime : Int
  date : Int
  temp : Option ℚ
  humidity : Option ℚ
  rain : ℚ
  cond : String
  wind : ℚ
deriving DecidableEq

/-- Python `str.capitalize`: first character upper-cased, the rest
lower-cased. -/
def pyCapitalize (s : String) : String :=
  match s.data with
  | [] => ""
  | c :: cs => String.mk (c.toUpper :: cs.map Char.toLower)

/-- Python `round(x, 1)` on our rational embedding: round half to even at
one decimal place. -/
def roundHalfEven (q : ℚ) : Int :=
  let f := ⌊q⌋
  let r := q - f
  if r < 1/2 then f
  else if 1/2 < r then f + 1
  else if f % 2 = 0 then f else f + 1

def pyRound1 (q : ℚ) : ℚ := (roundHalfEven (q * 10) : ℚ) / 10

/-- `it.get("rain", {}).get("3h", 0.0) if it.get("rain") else 0.0`:
absent key, falsy empty dict, and dict without `"3h"` all yield `0.0`. -/
def extractRain : Option (Option ℚ) → ℚ
  | none => 0
  | some none => 0
  | some (some v) => v

/-- `it.get("wind", {}).get("speed", 0.0)`. -/
def extractWindSpeed : Option (Option ℚ) → ℚ
  | none => 0
  | some none => 0
  | some (some v) => v

/-- `it.get("weather", [{}])[0].get("description", "")`, which raises
IndexError (embedded as `none`) when the `"weather"` key is present but
holds an empty list. -/
def extractCond : Option (List (Option String)) → Option String
  | none => some ""
  | some [] => none
  | some (d :: _) => some (d.getD "")

/-- One iteration of the row-building loop of `build_forecast_df`. -/
def buildRow (it : Entry) : Option Row := do
  let epoch := it.dt.getD 0
  let cond ← extractCond it.weather
  pure { datetime := epoch
         date := epoch.fdiv 86400
         temp := it.temp
         humidity := it.humidity
         rain := extractRain it.rain
         cond := pyCapitalize cond
         wind := pyRound1 (extractWindSpeed it.windSpeed * (18/5)) }

/-- `forecast_json`: only the `"list"` key is read (`.get("list", [])`). -/
structure Forecast where
  list : Option (List Entry)
deriving DecidableEq

/-- streamlit_app.build_forecast_df.  A `none` result is the loop raising
(the only raise site is the weather `[0]` indexing); the Python loop
aborts the whole build in that case, discarding rows built so far. -/
def build_forecast_df (js : Forecast) : Option (List Row) :=
  (js.list.getD []).mapM buildRow

/-! ### Forecast normalization: utils.build_hourly_df (hourly arrays) -/

/-- `js.get("hourly", {})`: the parallel arrays, each `none` when its key
is absent (reading an absent key raises KeyError in this builder). -/
structure HourlyArrays where
  time : Option (List String)
  temperature_2m : Option (List ℚ)
  relative_humidity_2m : Option (List ℚ)
  precipitation : Option (List ℚ)
  wind_speed_10m : Option (List ℚ)
deriving DecidableEq

structure HRow where
  datetime : String
  date : String
  temp : ℚ
  humidity : ℚ
  rain : ℚ
  wind : ℚ
deriving DecidableEq

/-- `datetime.fromisoformat(t).date()`: for the well-formed ISO-8601
timestamps this builder receives, the calendar date is the first ten
characters of the string. -/
def isoDate (t : String) : String := t.take 10

/-- `hourly["key"][i]`: KeyError on an absent key, IndexError past the
end of the array; both abort the build. -/
def hLookup (arr : Option (List ℚ)) (i : ℕ) : Option ℚ := do
  (← arr).get? i

structure HourlyJs where
  hourly : Option HourlyArrays
deriving DecidableEq

/-- utils.build_hourly_df. -/
def build_hourly_df (js : HourlyJs) : Option (List HRow) :=
  let hourly := js.hourly.getD ⟨none, none, none, none, none⟩
  let times := hourly.time.getD []
  times.enum.mapM fun p => do
    let temp ← hLookup hourly.temperature_2m p.1
    let hum ← hLookup hourly.relative_humidity_2m p.1
    let rain ← hLookup hourly.precipitation p.1
    let wind ← hLookup hourly.wind_speed_10m p.1
    pure { datetime := p.2, date := isoDate p.2,
           temp := temp, humidity := hum, rain := rain, wind := wind }

/-! ### Daily aggregation

`df.groupby("Date").agg({"Rain (mm)": "sum", "Temperature (°C)": "mean",
"Humidity (%)": "mean"}).reset_index()` from streamlit_app.py (which adds
a redundant `.sort_values("Date")`) and pages/01_Rain_Forecast.py.
pandas `groupby` with its default `sort=True` emits one group per
distinct key, keys in ascending order; `"mean"` skips missing (NaN)
values; `"sum"` adds the group's values. -/

structure DSample where
  date : Int
  temp : Option ℚ
  humidity : Option ℚ
  rain : ℚ
deriving DecidableEq

structure Daily where
  date : Int
  rainTotal : ℚ
  tempMean : Option ℚ
  humMean : Option ℚ
deriving DecidableEq

/-- pandas `"mean"`: arithmetic mean of the present values, undefined
(NaN, embedded as `none`) when no value is present. -/
def meanOpt (xs : List ℚ) : Option ℚ :=
  if xs = [] then none else some (xs.sum / xs.length)

/-- The aggregate row of one date group. -/
def dailyFor (samples : List DSample) (d : Int) : Daily :=
  let g := samples.filter fun s => s.date = d
  { date := d
    rainTotal := (g.map (·.rain)).sum
    tempMean := meanOpt (g.filterMap (·.temp))
    humMean := meanOpt (g.filterMap (·.humidity)) }

/-- The groupby block: one row per distinct date, dates ascending. -/
def aggregate_daily (samples : List DSample) : List Daily :=
  (((samples.map (·.date)).toFinset.sort (· ≤ ·)).map (dailyFor samples))

@[simp] theorem dailyFor_date (samples : List DSample) (d : Int) :
    (dailyFor samples d).date = d := rfl

/-! ### Advisory engine: the compose_advice variants -/

namespace Utils

/-- Rain tier of utils.compose_advice (first match wins). -/
def rainClause (today_rain : ℚ) : String :=
  if today_rain > 30 then "Heavy rain — avoid fertilizer, secure crops and drainage."
  else if today_rain > 10 then "Moderate rain — delay irrigation, prepare drainage."
  else if today_rain > 0 then "Light rain — minimal irrigation needed."
  else "No rain — schedule irrigation/fertilizer on dry day."

/-- Temperature block of utils.compose_advice: gated on `if avg_temp:`,
i.e. on truthiness — `None` and `0.0` both skip the whole block. -/
def tempClause : Option ℚ → String
  | none => ""
  | some t =>
    if t = 0 then ""
    else if t > 40 then " ⚠️ Very hot day — protect crops and livestock."
    else if t < 10 then " ❄️ Very cold day — protect sensitive crops."
    else if t > 35 then " High temperature — irrigate during cooler hours."
    else if t < 20 then " Cooler weather — good for sowing wheat/mustard."
    else ""

/-- Humidity block: `if avg_hum and avg_hum > 85:` (truthiness again). -/
def humClause : Option ℚ → String
  | none => ""
  | some h => if h ≠ 0 ∧ h > 85 then " High humidity — monitor fungal diseases." else ""

/-- Crop block: `if crop:` — truthy means a non-None, nonempty string. -/
def cropClause : Option String → String
  | none => ""
  | some c => if c ≠ "" then " Crop-specific advice for " ++ c ++ "." else ""

/-- utils.compose_advice: the sequence of `advice += ...` statements. -/
def compose_advice (today_rain : ℚ) (avg_temp avg_hum : Option ℚ)
    (crop : Option String) : String :=
  rainClause today_rain ++ tempClause avg_temp ++ humClause avg_hum ++ cropClause crop

end Utils

namespace App

/-- Rain tier of streamlit_app.compose_advice. -/
def rainClause (today_rain : ℚ) : String :=
  if today_rain > 30 then "Heavy rain expected — avoid fertilizer application, secure harvested crops and livestock, and ensure drainage is clear."
  else if today_rain > 10 then "Moderate rain expected — delay irrigation and spraying; prepare drainage."
  else if today_rain > 0 then "Light rain expected — minimal irrigation needed; cover sensitive crops if forecast shows heavier rain later."
  else "No rain expected — schedule irrigation and fertilizer application on dry day."

/-- Temperature block: gated on `if avg_temp is not None:`. -/
def tempClause : Option ℚ → String
  | none => ""
  | some t =>
    if t > 35 then " High temperatures — apply mulch and irrigate during cooler hours."
    else if t < 20 then " Cooler weather — suitable for sowing wheat and mustard."
    else ""

/-- Humidity block: `if avg_hum is not None and avg_hum > 85:`. -/
def humClause : Option ℚ → String
  | none => ""
  | some h => if h > 85 then " High humidity — monitor for fungal diseases and consider protective treatments." else ""

/-- streamlit_app.compose_advice (no crop parameter in this variant). -/
def compose_advice (today_rain : ℚ) (avg_temp avg_hum : Option ℚ) : String :=
  rainClause today_rain ++ tempClause avg_temp ++ humClause avg_hum

end App

namespace Pages02

/-- Rain tier of pages/02_Farmer_Advisory.compose_advice — note every
clause of this variant carries a trailing space. -/
def rainClause (today_rain : ℚ) : String :=
  if today_rain > 30 then "Heavy rain expected — avoid fertilizer and protect harvested crops. "
  else if today_rain > 10 then "Moderate rain — delay irrigation and spraying. "
  else if today_rain > 0 then "Light rain — minimal irrigation needed. "
  else "No rain — irrigation recommended today. "

/-- Temperature block: plain float, no None gate, cool threshold 18. -/
def tempClause (t : ℚ) : String :=
  if t > 35 then "High temp — irrigate during cool hours. "
  else if t < 18 then "Cool temp — good for sowing wheat/mustard. "
  else ""

def humClause (h : ℚ) : String :=
  if h > 85 then "High humidity — fungal risk; monitor crops. " else ""

/-- Crop block: string equality against the three crop names; each crop
sentence carries a leading space. -/
def cropClause (crop : Option String) : String :=
  if crop = some "Wheat" then " Wheat: Avoid waterlogging; maintain field drainage."
  else if crop = some "Rice" then " Rice: Standing water is okay if rain is light."
  else if crop = some "Maize" then " Maize: Protect against stem borers in humid weather."
  else ""

/-- pages/02_Farmer_Advisory.compose_advice (pages/01 is identical up to
parameter names). -/
def compose_advice (today_rain avg_temp avg_hum : ℚ) (crop : Option String) : String :=
  rainClause today_rain ++ tempClause avg_temp ++ humClause avg_hum ++ cropClause crop

end Pages02

/-! ### Flood risk (streamlit_app.py if/elif block) -/

inductive FloodRisk
  | LOW
  | MEDIUM
  | HIGH
deriving DecidableEq

/-- The flood-risk classification: `if avg_rain > 20 and avg_hum > 80:`
HIGH, `elif avg_rain > 10 and avg_hum > 70:` MEDIUM, `else` LOW. -/
def flood_risk (avg_rain avg_hum : ℚ) : FloodRisk :=
  if avg_rain > 20 ∧ avg_hum > 80 then .HIGH
  else if avg_rain > 10 ∧ avg_hum > 70 then .MEDIUM
  else .LOW

end RainBot

namespace RainBot

/-! ### Claim C1: rain tiers are exclusive lower bounds, first match wins -/

/-- C1: for every rain input, compose_advice selects exactly one rain-tier
clause by first match on exclusive lower bounds — rain > 30 heavy,
10 < rain ≤ 30 moderate, 0 < rain ≤ 10 light, rain = 0 the no-rain clause;
in particular rain = 10 selects the light clause and rain = 30 the
moderate clause, in both the utils and the streamlit_app variant. -/
theorem claim_C1 :
    (∀ r : ℚ, 0 ≤ r →
      ((Utils.rainClause r = "Heavy rain — avoid fertilizer, secure crops and drainage." ↔ 30 < r) ∧
       (Utils.rainClause r = "Moderate rain — delay irrigation, prepare drainage." ↔ 10 < r ∧ r ≤ 30) ∧
       (Utils.rainClause r = "Light rain — minimal irrigation needed." ↔ 0 < r ∧ r ≤ 10) ∧
       (Utils.rainClause r = "No rain — schedule irrigation/fertilizer on dry day." ↔ r = 0)) ∧
      ((App.rainClause r = "Heavy rain expected — avoid fertilizer application, secure harvested crops and livestock, and ensure drainage is clear." ↔ 30 < r) ∧
       (App.rainClause r = "Moderate rain expected — delay irrigation and spraying; prepare drainage." ↔ 10 < r ∧ r ≤ 30) ∧
       (App.rainClause r = "Light rain expected — minimal irrigation needed; cover sensitive crops if forecast shows heavier rain later." ↔ 0 < r ∧ r ≤ 10) ∧
       (App.rainClause r = "No rain expected — schedule irrigation and fertilizer application on dry day." ↔ r = 0))) ∧
    Utils.rainClause 10 = "Light rain — minimal irrigation needed." ∧
    Utils.rainClause 30 = "Moderate rain — delay irrigation, prepare drainage." ∧
    App.rainClause 10 = "Light rain expected — minimal irrigation needed; cover sensitive crops if forecast shows heavier rain later." ∧
    App.rainClause 30 = "Moderate rain expected — delay irrigation and spraying; prepare drainage." := by
  constructor
  · intro r h0
    unfold Utils.rainClause App.rainClause
    split_ifs with h1 h2 h3 <;>
      refine ⟨⟨⟨fun hq => ?_, fun hq => ?_⟩, ⟨fun hq => ?_, fun hq => ?_⟩,
               ⟨fun hq => ?_, fun hq => ?_⟩, ⟨fun hq => ?_, fun hq => ?_⟩⟩,
              ⟨⟨fun hq => ?_, fun hq => ?_⟩, ⟨fun hq => ?_, fun hq => ?_⟩,
               ⟨fun hq => ?_, fun hq => ?_⟩, ⟨fun hq => ?_, fun hq => ?_⟩⟩⟩ <;>
      first
        | rfl
        | linarith
        | exact absurd hq (by decide)
        | exact ⟨by linarith, by linarith⟩
  · exact ⟨by decide, by decide, by decide, by decide⟩

/-- Witness for C1 at rain = 10. -/
theorem claim_C1_witness :
    (0:ℚ) ≤ 10 ∧
    ((Utils.rainClause 10 = "Heavy rain — avoid fertilizer, secure crops and drainage." ↔ 30 < (10:ℚ)) ∧
     (Utils.rainClause 10 = "Moderate rain — delay irrigation, prepare drainage." ↔ 10 < (10:ℚ) ∧ (10:ℚ) ≤ 30) ∧
     (Utils.rainClause 10 = "Light rain — minimal irrigation needed." ↔ 0 < (10:ℚ) ∧ (10:ℚ) ≤ 10) ∧
     (Utils.rainClause 10 = "No rain — schedule irrigation/fertilizer on dry day." ↔ (10:ℚ) = 0)) ∧
    ((App.rainClause 10 = "Heavy rain expected — avoid fertilizer application, secure harvested crops and livestock, and ensure drainage is clear." ↔ 30 < (10:ℚ)) ∧
     (App.rainClause 10 = "Moderate rain expected — delay irrigation and spraying; prepare drainage." ↔ 10 < (10:ℚ) ∧ (10:ℚ) ≤ 30) ∧
     (App.rainClause 10 = "Light rain expected — minimal irrigation needed; cover sensitive crops if forecast shows heavier rain later." ↔ 0 < (10:ℚ) ∧ (10:ℚ) ≤ 10) ∧
     (App.rainClause 10 = "No rain expected — schedule irrigation and fertilizer application on dry day." ↔ (10:ℚ) = 0)) :=
  ⟨by norm_num, claim_C1.1 10 (by norm_num)⟩

/-! ### Claim C5: flood risk classification -/

/-- C5: flood_risk is HIGH exactly when rain > 20 and humidity > 80,
MEDIUM exactly when not HIGH and rain > 10 and humidity > 70, LOW
otherwise; (25, 85) is HIGH, (15, 75) is MEDIUM, (5, 50) is LOW. -/
theorem claim_C5 :
    (∀ r h : ℚ,
      (flood_risk r h = .HIGH ↔ 20 < r ∧ 80 < h) ∧
      (flood_risk r h = .MEDIUM ↔ ¬(20 < r ∧ 80 < h) ∧ (10 < r ∧ 70 < h)) ∧
      (flood_risk r h = .LOW ↔ ¬(20 < r ∧ 80 < h) ∧ ¬(10 < r ∧ 70 < h))) ∧
    flood_risk 25 85 = .HIGH ∧ flood_risk 15 75 = .MEDIUM ∧ flood_risk 5 50 = .LOW := by
  refine ⟨fun r h => ?_, by decide, by decide, by decide⟩
  unfold flood_risk
  split_ifs with h1 h2 <;> simp_all

end RainBot

namespace RainBot

/-! ### Claim C3: temperature tiers -/

/-- C3 counterexample: in utils.compose_advice the region above 35 °C is
split into two distinct tiers (> 40 very hot, 35–40 high temperature),
and below 10 °C the very-cold clause fires instead of the cool-weather
clause — so the temperature clause is not simply heat when t > 35 and
cool-weather when t < 20, and tiers beyond the two claimed ones exist. -/
theorem claim_C3_counterexample :
    Utils.tempClause (some 42) = " ⚠️ Very hot day — protect crops and livestock." ∧
    Utils.tempClause (some 38) = " High temperature — irrigate during cooler hours." ∧
    Utils.tempClause (some 42) ≠ Utils.tempClause (some 38) ∧
    Utils.tempClause (some 5) = " ❄️ Very cold day — protect sensitive crops." ∧
    Utils.tempClause (some 5) ≠ " Cooler weather — good for sowing wheat/mustard." := by
  decide

/-- C3 amended: the claimed two-tier scheme (heat above 35, cool below
20, nothing in between) holds for streamlit_app.compose_advice; in
utils.compose_advice a very-hot tier (> 40) and a very-cold tier (< 10)
are checked first (and the whole block is skipped at temperature 0), and
in the pages variants the cool threshold is 18, not 20. -/
theorem claim_C3_amended :
    (∀ t : ℚ,
      (35 < t → App.tempClause (some t) = " High temperatures — apply mulch and irrigate during cooler hours.") ∧
      (t < 20 → App.tempClause (some t) = " Cooler weather — suitable for sowing wheat and mustard.") ∧
      (20 ≤ t → t ≤ 35 → App.tempClause (some t) = "") ∧
      (40 < t → Utils.tempClause (some t) = " ⚠️ Very hot day — protect crops and livestock.") ∧
      (t ≠ 0 → t < 10 → Utils.tempClause (some t) = " ❄️ Very cold day — protect sensitive crops.") ∧
      (35 < t → t ≤ 40 → Utils.tempClause (some t) = " High temperature — irrigate during cooler hours.") ∧
      (10 ≤ t → t < 20 → Utils.tempClause (some t) = " Cooler weather — good for sowing wheat/mustard.") ∧
      (20 ≤ t → t ≤ 35 → Utils.tempClause (some t) = "") ∧
      (35 < t → Pages02.tempClause t = "High temp — irrigate during cool hours. ") ∧
      (t < 18 → Pages02.tempClause t = "Cool temp — good for sowing wheat/mustard. ") ∧
      (18 ≤ t → t ≤ 35 → Pages02.tempClause t = "")) ∧
    App.tempClause none = "" ∧ Utils.tempClause none = "" := by
  refine ⟨fun t => ?_, rfl, rfl⟩
  simp only [App.tempClause, Utils.tempClause, Pages02.tempClause]
  refine ⟨fun hp => ?_, fun hp => ?_, fun hp hp9 => ?_, fun hp => ?_, fun hp hp9 => ?_,
          fun hp hp9 => ?_, fun hp hp9 => ?_, fun hp hp9 => ?_, fun hp => ?_,
          fun hp => ?_, fun hp hp9 => ?_⟩ <;>
    split_ifs with h1 h2 h3 h4 h5 <;>
    first
      | rfl
      | (exfalso; linarith)
      | (exact absurd h1 hp)

/-- Witness for C3 at temperature 38 (streamlit_app heat clause). -/
theorem claim_C3_witness :
    35 < (38:ℚ) ∧
    App.tempClause (some 38) = " High temperatures — apply mulch and irrigate during cooler hours." :=
  ⟨by norm_num, (claim_C3_amended.1 38).1 (by norm_num)⟩

/-! ### Claim C10: truthiness gate on the utils temperature block -/

/-- C10: in utils.compose_advice the temperature block is gated on the
truthiness of avg_temp, so at exactly 0 (or None) no temperature clause
is appended even though 0 is below every cold threshold; the clause can
fire only for a non-None, nonzero temperature. -/
theorem claim_C10 :
    (∀ (r : ℚ) (hum : Option ℚ) (c : Option String),
      Utils.compose_advice r (some 0) hum c = Utils.compose_advice r none hum c) ∧
    Utils.tempClause (some 0) = "" ∧
    Utils.tempClause none = "" ∧
    (∀ t : Option ℚ, Utils.tempClause t ≠ "" → ∃ v : ℚ, t = some v ∧ v ≠ 0) := by
  have h0 : Utils.tempClause (some 0) = "" := by decide
  refine ⟨fun r hum c => ?_, h0, rfl, fun t ht => ?_⟩
  · unfold Utils.compose_advice
    rw [h0]
    rfl
  · match t with
    | none => exact absurd rfl ht
    | some v =>
      refine ⟨v, rfl, fun hv => ?_⟩
      subst hv
      exact ht h0

/-- Witness for C10 at temperature 5 (nonzero, clause fires). -/
theorem claim_C10_witness :
    Utils.tempClause (some 5) ≠ "" ∧ ∃ v : ℚ, some (5:ℚ) = some v ∧ v ≠ 0 :=
  ⟨by decide, claim_C10.2.2.2 (some 5) (by decide)⟩

end RainBot

namespace RainBot

/-! ### Claim C2: missing required fields (code evaluation) -/

/-- C2 evaluation: an entry lacking the required temperature field (no
`main` dict at all) is not rejected — build_forecast_df succeeds and
keeps the partial row, with temperature and humidity absent, instead of
failing the whole call as the specified MalformedPayloadError contract
requires. -/
theorem claim_C2_code_eval :
    build_forecast_df ⟨some [⟨some 1700000000, none, none, none, none, none⟩]⟩ =
      some [⟨1700000000, 19675, none, none, 0, "", 0⟩] ∧
    build_forecast_df ⟨some [⟨some 1700000000, none, none, none, none, none⟩]⟩ ≠ none := by
  have h : build_forecast_df ⟨some [⟨some 1700000000, none, none, none, none, none⟩]⟩ =
      some [⟨1700000000, 19675, none, none, 0, "", 0⟩] := by
    with_unfolding_all rfl
  exact ⟨h, by rw [h]; exact fun hc => Option.noConfusion hc⟩

/-! ### Claim C6: absent rain key normalizes to 0.0 -/

/-- C6: every payload entry lacking the rain field normalizes to
rain_mm = 0 (never a missing value — the Row field is total); the spec
scenario with main.temp = 28.4, main.humidity = 70 and no rain key
produces rain_mm = 0. -/
theorem claim_C6 :
    (∀ (e : Entry) (row : Row), e.rain = none → buildRow e = some row → row.rain = 0) ∧
    buildRow ⟨some 0, some (142/5), some 70, none, none, none⟩ =
      some ⟨0, 0, some (142/5), some 70, 0, "", 0⟩ := by
  constructor
  · intro e row hr hb
    rcases hw : extractCond e.weather with _ | c
    · simp [buildRow, hw] at hb
    · simp [buildRow, hw] at hb
      subst hb
      show extractRain e.rain = 0
      rw [hr]
      rfl
  · with_unfolding_all rfl

/-- Witness for C6 at the spec scenario entry. -/
theorem claim_C6_witness :
    (Entry.mk (some 0) (some (142/5)) (some 70) none none none).rain = none ∧
    buildRow (Entry.mk (some 0) (some (142/5)) (some 70) none none none) =
      some (Row.mk 0 0 (some (142/5)) (some 70) 0 "" 0) ∧
    (Row.mk 0 0 (some (142/5)) (some 70) 0 "" 0).rain = 0 :=
  ⟨rfl, by with_unfolding_all rfl,
    claim_C6.1 (Entry.mk (some 0) (some (142/5)) (some 70) none none none)
      (Row.mk 0 0 (some (142/5)) (some 70) 0 "" 0) rfl (by with_unfolding_all rfl)⟩

/-! ### Claim C8: the empty payload is not an error -/

/-- C8: a payload with zero entries (an empty list, or the key missing
entirely) normalizes to the empty sequence in both builders, with no
failure; emptiness (`some []`) is distinct from the failure value. -/
theorem claim_C8 :
    (∀ js : Forecast, js.list = some [] → build_forecast_df js = some []) ∧
    (∀ js : Forecast, js.list = none → build_forecast_df js = some []) ∧
    (∀ (js : HourlyJs) (arrs : HourlyArrays), js.hourly = some arrs → arrs.time = some [] →
      build_hourly_df js = some []) ∧
    (∀ js : HourlyJs, js.hourly = none → build_hourly_df js = some []) ∧
    some ([] : List Row) ≠ none := by
  refine ⟨fun js hj => ?_, fun js hj => ?_, fun js arrs hj ht => ?_, fun js hj => ?_, by simp⟩
  · simp only [build_forecast_df, hj]
    rfl
  · simp only [build_forecast_df, hj]
    rfl
  · simp only [build_hourly_df, hj, Option.getD_some, ht]
    rfl
  · simp only [build_hourly_df, hj]
    rfl

/-- Witness for C8 at the empty list payload. -/
theorem claim_C8_witness :
    (Forecast.mk (some [])).list = some [] ∧ build_forecast_df ⟨some []⟩ = some [] :=
  ⟨rfl, claim_C8.1 ⟨some []⟩ rfl⟩

end RainBot

namespace RainBot

/-! ### Claims C7 and C9: daily aggregation invariants -/

theorem meanOpt_perm {xs ys : List ℚ} (h : xs.Perm ys) : meanOpt xs = meanOpt ys := by
  unfold meanOpt
  rcases eq_or_ne xs [] with hx | hx
  · subst hx
    have hy : ys = [] := h.symm.eq_nil
    simp [hy]
  · have hy : ys ≠ [] := fun he => hx (by rw [he] at h; exact h.eq_nil)
    rw [if_neg hx, if_neg hy, h.sum_eq, h.length_eq]

theorem dailyFor_perm {l l' : List DSample} (h : l.Perm l') (d : Int) :
    dailyFor l d = dailyFor l' d := by
  have hf : (l.filter fun s => s.date = d).Perm (l'.filter fun s => s.date = d) :=
    h.filter _
  unfold dailyFor
  simp only [Daily.mk.injEq]
  exact ⟨trivial, (hf.map _).sum_eq, meanOpt_perm (hf.filterMap _), meanOpt_perm (hf.filterMap _)⟩

theorem aggregate_daily_perm {l l' : List DSample} (h : l.Perm l') :
    aggregate_daily l = aggregate_daily l' := by
  unfold aggregate_daily
  rw [List.toFinset_eq_of_perm _ _ (h.map _)]
  have hd : dailyFor l = dailyFor l' := funext (dailyFor_perm h)
  rw [hd]

theorem aggregate_daily_dates (l : List DSample) :
    (aggregate_daily l).map (·.date) = (l.map (·.date)).toFinset.sort (· ≤ ·) := by
  unfold aggregate_daily
  rw [List.map_map]
  simp [Function.comp_def]

/-- C7: for every non-empty sample sequence, regardless of input order
(invariance under permutation), the daily aggregation emits its groups in
strictly ascending date order with no duplicate dates, and each group
carries the sum of its samples' rain and the arithmetic mean of its
samples' non-missing temperature/humidity values. -/
theorem claim_C7 :
    ∀ l l' : List DSample, l ≠ [] → l.Perm l' →
      aggregate_daily l = aggregate_daily l' ∧
      ((aggregate_daily l).map (·.date)).Pairwise (· < ·) ∧
      ((aggregate_daily l).map (·.date)).Nodup ∧
      aggregate_daily l ≠ [] ∧
      ∀ a ∈ aggregate_daily l,
        a.rainTotal = ((l.filter fun s => s.date = a.date).map (·.rain)).sum ∧
        a.tempMean = meanOpt ((l.filter fun s => s.date = a.date).filterMap (·.temp)) ∧
        a.humMean = meanOpt ((l.filter fun s => s.date = a.date).filterMap (·.humidity)) := by
  intro l l' hne hperm
  have hsorted : ((aggregate_daily l).map (·.date)).Pairwise (· < ·) := by
    rw [aggregate_daily_dates]
    exact Finset.sort_sorted_lt _
  refine ⟨aggregate_daily_perm hperm, hsorted, hsorted.imp ne_of_lt, ?_, ?_⟩
  · cases l with
    | nil => exact absurd rfl hne
    | cons x t =>
      apply List.length_pos.1
      unfold aggregate_daily
      rw [List.length_map, Finset.length_sort]
      refine Finset.card_pos.2 ⟨x.date, List.mem_toFinset.2 ?_⟩
      simp
  · intro a ha
    obtain ⟨d, hd, rfl⟩ := List.mem_map.1 ha
    exact ⟨rfl, rfl, rfl⟩

/-- Witness for C7 on a two-sample list given in descending date order. -/
theorem claim_C7_witness :
    aggregate_daily [⟨1, some 20, some 50, 2⟩, ⟨0, some 10, some 40, 1⟩] =
      aggregate_daily [⟨0, some 10, some 40, 1⟩, ⟨1, some 20, some 50, 2⟩] ∧
    ((aggregate_daily [⟨1, some 20, some 50, 2⟩, ⟨0, some 10, some 40, 1⟩]).map (·.date)).Pairwise (· < ·) :=
  ⟨(claim_C7 [⟨1, some 20, some 50, 2⟩, ⟨0, some 10, some 40, 1⟩]
      [⟨0, some 10, some 40, 1⟩, ⟨1, some 20, some 50, 2⟩] (by decide) (by decide)).1,
   (claim_C7 [⟨1, some 20, some 50, 2⟩, ⟨0, some 10, some 40, 1⟩]
      [⟨0, some 10, some 40, 1⟩, ⟨1, some 20, some 50, 2⟩] (by decide) (by decide)).2.1⟩

theorem filter_eq_singleton_of_nodup (l : List DSample) (x : DSample)
    (hx : x ∈ l) (hn : (l.map (·.date)).Nodup) :
    (l.filter fun s => s.date = x.date) = [x] := by
  induction l with
  | nil => cases hx
  | cons y t ih =>
    rw [List.map_cons, List.nodup_cons] at hn
    rcases List.mem_cons.1 hx with heq | hxt
    · subst heq
      rw [List.filter_cons_of_pos (by simp)]
      have ht : t.filter (fun s => decide (s.date = x.date)) = [] := by
        rw [List.filter_eq_nil_iff]
        intro s hs
        simp only [decide_eq_true_eq]
        intro hsd
        exact hn.1 (hsd ▸ List.mem_map_of_mem _ hs)
      rw [ht]
    · have hneq : y.date ≠ x.date := by
        intro he
        exact hn.1 (he ▸ List.mem_map_of_mem (fun s => s.date) hxt)
      rw [List.filter_cons_of_neg (by simp [hneq])]
      exact ih hxt hn.2

/-- C9: aggregating a sequence that has exactly one sample per calendar
date yields one aggregate per sample, equal to that sample's own values
(sum of one value = that value, mean of one value = that value). -/
theorem claim_C9 :
    ∀ l : List DSample, (l.map (·.date)).Nodup →
      (∀ x ∈ l, (⟨x.date, x.rain, x.temp, x.humidity⟩ : Daily) ∈ aggregate_daily l) ∧
      (aggregate_daily l).length = l.length := by
  intro l hn
  constructor
  · intro x hx
    have hmem : x.date ∈ (l.map (·.date)).toFinset.sort (· ≤ ·) :=
      (Finset.mem_sort _).2 (List.mem_toFinset.2 (List.mem_map_of_mem _ hx))
    have hsingle : dailyFor l x.date = ⟨x.date, x.rain, x.temp, x.humidity⟩ := by
      unfold dailyFor
      rw [filter_eq_singleton_of_nodup l x hx hn]
      rcases hxt : x.temp with _ | v <;> rcases hxh : x.humidity with _ | w <;>
        simp [meanOpt, hxt, hxh]
    exact hsingle ▸ List.mem_map_of_mem _ hmem
  · unfold aggregate_daily
    rw [List.length_map, Finset.length_sort, List.toFinset_card_of_nodup hn, List.length_map]

/-- Witness for C9 on a two-sample, one-sample-per-day list. -/
theorem claim_C9_witness :
    (([⟨0, some 10, none, 1⟩, ⟨1, none, some 50, 2⟩] : List DSample).map (·.date)).Nodup ∧
    (⟨0, 1, some 10, none⟩ : Daily) ∈
      aggregate_daily [⟨0, some 10, none, 1⟩, ⟨1, none, some 50, 2⟩] :=
  ⟨by decide,
   (claim_C9 [⟨0, some 10, none, 1⟩, ⟨1, none, some 50, 2⟩] (by decide)).1
     ⟨0, some 10, none, 1⟩ (by decide)⟩

end RainBot

namespace RainBot

/-! ### Claim C4: clause concatenation -/

/-- Modelled from the spec (section 4.2): the advisory output is the
concatenation of whichever clauses fired, in the fixed order rain,
temperature, humidity, crop, joined with a single space, unfired clauses
contributing nothing. -/
def specJoin : List String → String
  | [] => ""
  | [s] => s
  | s :: t :: rest => s ++ " " ++ specJoin (t :: rest)

/-- The utils temperature sentence with no leading separator (spec side
of the refinement). -/
def specTempSentence : Option ℚ → String
  | none => ""
  | some t =>
    if t = 0 then ""
    else if t > 40 then "⚠️ Very hot day — protect crops and livestock."
    else if t < 10 then "❄️ Very cold day — protect sensitive crops."
    else if t > 35 then "High temperature — irrigate during cooler hours."
    else if t < 20 then "Cooler weather — good for sowing wheat/mustard."
    else ""

/-- The utils humidity sentence with no leading separator. -/
def specHumSentence : Option ℚ → String
  | none => ""
  | some h => if h ≠ 0 ∧ h > 85 then "High humidity — monitor fungal diseases." else ""

/-- The utils crop sentence with no leading separator. -/
def specCropSentence : Option String → String
  | none => ""
  | some c => if c ≠ "" then "Crop-specific advice for " ++ c ++ "." else ""

/-- The list of fired clauses, in the fixed order rain, temperature,
humidity, crop. -/
def specFiredClauses (r : ℚ) (t h : Option ℚ) (c : Option String) : List String :=
  [Utils.rainClause r, specTempSentence t, specHumSentence h, specCropSentence c].filter (· ≠ "")

/-- A fired clause in the source carries exactly one leading space; an
unfired clause contributes the empty string. -/
def glue (s : String) : String := if s = "" then "" else " " ++ s

theorem tempClause_eq_glue (t : Option ℚ) :
    Utils.tempClause t = glue (specTempSentence t) := by
  rcases t with _ | t
  · rfl
  · simp only [Utils.tempClause, specTempSentence]
    split_ifs <;> decide

theorem humClause_eq_glue (h : Option ℚ) :
    Utils.humClause h = glue (specHumSentence h) := by
  rcases h with _ | h
  · rfl
  · simp only [Utils.humClause, specHumSentence]
    split_ifs <;> decide

theorem cropClause_eq_glue (c : Option String) :
    Utils.cropClause c = glue (specCropSentence c) := by
  rcases c with _ | c
  · rfl
  · simp only [Utils.cropClause, specCropSentence]
    split_ifs with hc
    · have hne : ("Crop-specific advice for " ++ (c ++ ".")) ≠ "" := by
        intro he
        have hl := congrArg String.length he
        rw [String.length_append, String.length_append] at hl
        rw [show ("Crop-specific advice for ":String).length = 25 by decide,
            show (".":String).length = 1 by decide,
            show ("":String).length = 0 by decide] at hl
        omega
      have hs : (" Crop-specific advice for " : String) = " " ++ "Crop-specific advice for " := by
        decide
      simp only [glue, hs, String.append_assoc]
      rw [if_neg hne]
    · rfl

theorem rainClause_ne_empty (r : ℚ) : Utils.rainClause r ≠ "" := by
  unfold Utils.rainClause
  split_ifs <;> decide

theorem glue_join (a s1 s2 s3 : String) (ha : a ≠ "") :
    a ++ glue s1 ++ glue s2 ++ glue s3 = specJoin ([a, s1, s2, s3].filter (· ≠ "")) := by
  by_cases h1 : s1 = "" <;> by_cases h2 : s2 = "" <;> by_cases h3 : s3 = "" <;>
    simp [glue, h1, h2, h3, ha, specJoin, List.filter_cons,
      String.append_empty, String.append_assoc]

set_option maxRecDepth 8192 in
/-- C4 counterexample: in the pages variant every clause carries its own
trailing space and the crop clause a leading space, so with all four
clauses fired the crop clause is preceded by two spaces — the output is
not the single-space join of the fired clauses. -/
theorem claim_C4_counterexample :
    Pages02.compose_advice 35 38 90 (some "Wheat") =
      "Heavy rain expected — avoid fertilizer and protect harvested crops. High temp — irrigate during cool hours. High humidity — fungal risk; monitor crops.  Wheat: Avoid waterlogging; maintain field drainage." ∧
    Pages02.compose_advice 35 38 90 (some "Wheat") ≠
      specJoin ["Heavy rain expected — avoid fertilizer and protect harvested crops.",
                "High temp — irrigate during cool hours.",
                "High humidity — fungal risk; monitor crops.",
                "Wheat: Avoid waterlogging; maintain field drainage."] := by
  constructor
  · decide
  · decide

set_option maxRecDepth 8192 in
/-- C4 amended: the single-space concatenation property holds for
utils.compose_advice — the output is exactly the fired clauses in the
fixed order rain, temperature, humidity, crop, joined by single spaces
with no stray separators, and the spec scenario (rain 35, temperature 38,
humidity 90, crop Wheat) fires all four clauses in that order. -/
theorem claim_C4_amended :
    (∀ (r : ℚ) (t h : Option ℚ) (c : Option String),
      Utils.compose_advice r t h c = specJoin (specFiredClauses r t h c)) ∧
    Utils.compose_advice 35 (some 38) (some 90) (some "Wheat") =
      "Heavy rain — avoid fertilizer, secure crops and drainage. High temperature — irrigate during cooler hours. High humidity — monitor fungal diseases. Crop-specific advice for Wheat." := by
  constructor
  · intro r t h c
    unfold Utils.compose_advice specFiredClauses
    rw [tempClause_eq_glue, humClause_eq_glue, cropClause_eq_glue]
    exact glue_join _ _ _ _ (rainClause_ne_empty r)
  · decide

end RainBot
